import Mathlib

/-!
Shallow embedding of the currency routes of the
`createrington-typescript-backend` repository
(`src/app/routes/currencyMod.ts`, `src/app/middleware/verifyIP.ts`,
`src/app/middleware/verifyJWT` and `src/app/utils/currency/logTransactions.ts`).

The persistent store is modelled as explicit state:
`user_funds` rows, `daily_rewards` rows and the append-only
`currency_transactions` log.  TypeScript numbers are modelled as `Int`
(all the arithmetic in these handlers is sign/compare/add/sub/mul, where
`Int` and IEEE doubles agree on the integer inputs considered here).
A Postgres transaction is modelled by returning the pre-state on every
rollback path and the mutated state on commit.  The `logTransactions`
call can fail at runtime; the Boolean parameter `logOk` states whether
that single `INSERT` succeeds, so both outcomes are in the model.
-/

/-- One row of the `user_funds` table: `uuid` (primary key), `name`,
`balance`. -/
structure Account where
  uuid : String
  name : String
  balance : Int
deriving Repr, DecidableEq

/-- One row of the append-only `currency_transactions` table, as written by
`logTransactions` (absent optional fields are SQL `NULL`, here `none`). -/
structure TransactionRecord where
  uuid : String
  action : String
  amount : Int
  from_uuid : Option String
  to_uuid : Option String
  denomination : Option Int
  count : Option Int
  balance_after : Option Int
deriving Repr, DecidableEq

/-- One row of the `daily_rewards` table: `uuid` (primary key) and a
nullable `last_claim_at` timestamp (minutes on the local clock). -/
structure RewardRow where
  uuid : String
  last_claim_at : Option Int
deriving Repr, DecidableEq

/-- The persistent state the currency routes touch. -/
structure DB where
  funds : List Account
  daily_rewards : List RewardRow
  txLog : List TransactionRecord
deriving Repr, DecidableEq

/-- `SELECT balance FROM user_funds WHERE uuid = $1` (first matching row,
as the handlers read `rows[0]`). -/
def lookupBal (funds : List Account) (u : String) : Option Int :=
  (funds.find? (fun a => a.uuid == u)).map Account.balance

/-- `UPDATE user_funds SET balance = f(balance) WHERE uuid = $2`. -/
def updateBal (funds : List Account) (u : String) (f : Int → Int) : List Account :=
  funds.map (fun a => if a.uuid == u then { a with balance := f a.balance } else a)

/-- `rowCount > 0` for a statement whose `WHERE` clause is `uuid = $2`. -/
def hasRow (funds : List Account) (u : String) : Bool :=
  funds.any (fun a => a.uuid == u)

/-- `logTransactions db data`: appends one row to `currency_transactions`. -/
def logTransactions (log : List TransactionRecord) (rec : TransactionRecord) :
    List TransactionRecord :=
  log ++ [rec]

/-- Response of `POST /currency/pay` (status plus the JSON fields used). -/
structure PayResp where
  status : Nat
  success : Bool
  new_sender_balance : Option Int
  error : Option String
deriving Repr, DecidableEq

/-- The handler's `res.status(400).json({ error: ... })` catch-all. -/
def payErr (msg : String) : PayResp :=
  { status := 400, success := false, new_sender_balance := none, error := some msg }

/-- `POST /currency/pay` (`currencyMod.ts` lines 93–165).  Inputs are
`Option`s: `none` models an absent/falsy `from_uuid`/`to_uuid` or a
non-number `amount`.  `logOk` states whether the post-commit
`logTransactions` insert succeeds; when it throws, the catch block runs
(`ROLLBACK` is a no-op after `COMMIT`) and answers 400 with the storage
error's message. -/
def pay (st : DB) (from_uuid to_uuid : Option String) (amount : Option Int)
    (logOk : Bool) : PayResp × DB :=
  match from_uuid, to_uuid, amount with
  | some fu, some tu, some amt =>
    if amt ≤ 0 then (payErr "Amount must be positive", st)
    else
      match lookupBal st.funds fu with
      | none => (payErr "Sender not found", st)
      | some senderBalance =>
        let newSenderBal := senderBalance - amt
        if senderBalance < amt then (payErr "Insufficient funds", st)
        else
          let funds1 := updateBal st.funds fu (fun b => b - amt)
          let funds2 := updateBal funds1 tu (fun b => b + amt)
          if hasRow funds1 tu then
            let committed : DB := { st with funds := funds2 }
            if logOk then
              let rec0 : TransactionRecord :=
                { uuid := fu, action := "pay", amount := amt,
                  from_uuid := some fu, to_uuid := some tu,
                  denomination := none, count := none,
                  balance_after := some newSenderBal }
              ({ status := 200, success := true,
                 new_sender_balance := some newSenderBal, error := none },
               { committed with txLog := logTransactions committed.txLog rec0 })
            else (payErr "log insert failed", committed)
          else (payErr "Recipient not found", st)
  | _, _, _ => (payErr "Invalid input", st)

/-- Response of `POST /currency/deposit`. -/
structure DepositResp where
  status : Nat
  success : Bool
  new_balance : Option Int
  error : Option String
deriving Repr, DecidableEq

def depositErr (status : Nat) (msg : String) : DepositResp :=
  { status := status, success := false, new_balance := none, error := some msg }

/-- `POST /currency/deposit` (`currencyMod.ts` lines 172–218).  The
missing-user path answers 404 directly (the update matched zero rows, so
the open transaction holds no writes). -/
def deposit (st : DB) (uuid : Option String) (amount : Option Int)
    (logOk : Bool) : DepositResp × DB :=
  match uuid, amount with
  | some u, some amt =>
    if amt ≤ 0 then (depositErr 400 "Invalid input", st)
    else
      match lookupBal st.funds u with
      | none => (depositErr 404 "User not found", st)
      | some b =>
        let newBalance := b + amt
        let committed : DB := { st with funds := updateBal st.funds u (fun x => x + amt) }
        if logOk then
          let rec0 : TransactionRecord :=
            { uuid := u, action := "deposit", amount := amt,
              from_uuid := none, to_uuid := none, denomination := none,
              count := none, balance_after := some newBalance }
          ({ status := 200, success := true, new_balance := some newBalance,
             error := none },
           { committed with txLog := logTransactions committed.txLog rec0 })
        else (depositErr 400 "log insert failed", committed)
  | _, _ => (depositErr 400 "Invalid input", st)

/-- Response of `POST /currency/withdraw`. -/
structure WithdrawResp where
  status : Nat
  success : Bool
  withdrawn : Option Int
  new_balance : Option Int
  denomination : Option Int
  count : Option Int
  error : Option String
deriving Repr, DecidableEq

def withdrawErr (msg : String) : WithdrawResp :=
  { status := 400, success := false, withdrawn := none, new_balance := none,
    denomination := none, count := none, error := some msg }

/-- `POST /currency/withdraw` (`currencyMod.ts` lines 226–291).  Only
`uuid` and `count` are validated; `denomination` defaults to 1000 when it
is not a number and its value is otherwise taken as-is
(`const denom = typeof denomination === "number" ? denomination : 1000`). -/
def withdraw (st : DB) (uuid : Option String) (count denomination : Option Int)
    (logOk : Bool) : WithdrawResp × DB :=
  match uuid, count with
  | some u, some c =>
    if c ≤ 0 then (withdrawErr "Invalid count or uuid", st)
    else
      let denom := denomination.getD 1000
      let amount := c * denom
      match lookupBal st.funds u with
      | none => (withdrawErr "User not found", st)
      | some b =>
        if b < amount then (withdrawErr "Insufficient funds", st)
        else
          let newBalance := b - amount
          let committed : DB := { st with funds := updateBal st.funds u (fun x => x - amount) }
          if logOk then
            let rec0 : TransactionRecord :=
              { uuid := u, action := "withdraw", amount := amount,
                from_uuid := none, to_uuid := none,
                denomination := some denom, count := some c,
                balance_after := some newBalance }
            ({ status := 200, success := true, withdrawn := some amount,
               new_balance := some newBalance, denomination := some denom,
               count := some c, error := none },
             { committed with txLog := logTransactions committed.txLog rec0 })
          else (withdrawErr "log insert failed", committed)
  | _, _ => (withdrawErr "Invalid count or uuid", st)

/-- Response of `GET /currency/balance`. -/
structure BalanceResp where
  status : Nat
  balance : Option Int
  error : Option String
deriving Repr, DecidableEq

/-- `GET /currency/balance` (`currencyMod.ts` lines 59–85). -/
def getBalance (st : DB) (uuid : Option String) : BalanceResp :=
  match uuid with
  | none => { status := 400, balance := none, error := some "Missing uuid" }
  | some u =>
    match lookupBal st.funds u with
    | none => { status := 404, balance := none, error := some "Player not found" }
    | some b => { status := 200, balance := some b, error := none }

/-- Response of `POST /currency/daily` (`hours`/`minutes` are the figures
interpolated into the 429 message). -/
structure DailyResp where
  status : Nat
  new_balance : Option Int
  hours : Option Int
  minutes : Option Int
deriving Repr, DecidableEq

def DAILY_REWARD_AMOUNT : Int := 50

/-- Minutes in a day. -/
def minutesPerDay : Int := 1440

/-- The 06:30 local reset instant as minutes past local midnight. -/
def dailyResetMinute : Int := 6 * 60 + 30

/-- `getLastReset` from the daily handler: today's 06:30 on the local
clock, or yesterday's when `current` precedes it.  Instants are minutes
on the Europe/Berlin wall clock. -/
def getLastReset (current : Int) : Int :=
  let resetTime := current - current % minutesPerDay + dailyResetMinute
  if current < resetTime then resetTime - minutesPerDay else resetTime

/-- `SELECT last_claim_at FROM daily_rewards WHERE uuid = $1`. -/
def findReward (rows : List RewardRow) (u : String) : Option RewardRow :=
  rows.find? (fun r => r.uuid == u)

/-- `INSERT INTO daily_rewards ... ON CONFLICT (uuid) DO UPDATE`. -/
def upsertReward (rows : List RewardRow) (u : String) (t : Int) : List RewardRow :=
  if rows.any (fun r => r.uuid == u) then
    rows.map (fun r => if r.uuid == u then { r with last_claim_at := some t } else r)
  else rows ++ [{ uuid := u, last_claim_at := some t }]

/-- `POST /currency/daily` (`currencyMod.ts` lines 383–488).  Note the
handler issues no `logTransactions` call on any path: after `COMMIT` it
answers directly. -/
def daily (st : DB) (uuid : Option String) (now : Int) : DailyResp × DB :=
  match uuid with
  | none => ({ status := 400, new_balance := none, hours := none, minutes := none }, st)
  | some u =>
    let lastReset := getLastReset now
    match lookupBal st.funds u with
    | none => ({ status := 404, new_balance := none, hours := none, minutes := none }, st)
    | some currentBal =>
      let lastClaim := (findReward st.daily_rewards u).bind RewardRow.last_claim_at
      let alreadyClaimed : Bool :=
        match lastClaim with
        | some t => decide (lastReset ≤ t)
        | none => false
      if alreadyClaimed then
        let nextReset := lastReset + minutesPerDay
        let dm := nextReset - now
        ({ status := 429, new_balance := none,
           hours := some (dm / 60), minutes := some (dm % 60) }, st)
      else
        let newBalance := currentBal + DAILY_REWARD_AMOUNT
        ({ status := 200, new_balance := some newBalance, hours := none, minutes := none },
         { st with
             funds := updateBal st.funds u (fun b => b + DAILY_REWARD_AMOUNT),
             daily_rewards := upsertReward st.daily_rewards u now })

/-- Ordering used by `SELECT name, balance FROM user_funds ORDER BY balance
DESC`: `a` before `b` when `a`'s balance is at least `b`'s. -/
def balGE (a b : Account) : Prop := b.balance ≤ a.balance

instance : DecidableRel balGE := fun a b => inferInstanceAs (Decidable (b.balance ≤ a.balance))

instance : IsTotal Account balGE := ⟨fun a b => le_total b.balance a.balance⟩

instance : IsTrans Account balGE := ⟨fun _ _ _ h1 h2 => le_trans h2 h1⟩

/-- The query of `GET /currency/top`: order by balance descending, keep at
most 10 rows, project `(name, balance)`.  (SQL leaves the order of ties
unspecified; a stable sort is one run the storage engine may produce.) -/
def topQuery (funds : List Account) : List (String × Int) :=
  ((List.insertionSort balGE funds).take 10).map (fun a => (a.name, a.balance))

/-- `authHeader.split(" ")[1]`: the text between the first and second space
(JavaScript yields `undefined` when there is no space and `""` between two
adjacent spaces; both are falsy, so both are modelled as `""`). -/
def bearerToken (h : String) : String :=
  match h.data.dropWhile (fun c => c != ' ') with
  | [] => ""
  | _ :: t => String.mk (t.takeWhile (fun c => c != ' '))

/-- `verifyJWT` (middleware): `some s` means it answers status `s` itself,
`none` means it calls `next()`.  `tokenValid` abstracts
`jwt.verify(token, secret)` succeeding. -/
def verifyJWTStep (authorization : Option String) (tokenValid : String → Bool) :
    Option Nat :=
  match authorization with
  | none => some 401
  | some h =>
    let token := bearerToken h
    if token = "" then some 401
    else if tokenValid token then none
    else some 403

/-- JavaScript `s.replace(pat, "")` for a plain-string pattern: removes the
first occurrence only. -/
def removeFirstOcc (pat : List Char) : List Char → List Char
  | [] => []
  | c :: rest =>
    if pat.isPrefixOf (c :: rest) then (c :: rest).drop pat.length
    else c :: removeFirstOcc pat rest

/-- JavaScript's `.trim()`: strip whitespace from both ends. -/
def jsTrim (l : List Char) : List Char :=
  ((l.dropWhile Char.isWhitespace).reverse.dropWhile Char.isWhitespace).reverse

/-- `verifyIP`'s normalisation: `(rawIp || "").replace("::ffff:", "")
.split(",")[0].trim()` — `.split(",")[0]` is everything before the first
comma. -/
def normalizeIp (raw : String) : String :=
  String.mk (jsTrim ((removeFirstOcc "::ffff:".data raw.data).takeWhile (fun c => c != ',')))

/-- `[allowedIp, allowedIpLocal].filter(Boolean)`: drops unset env vars and
empty strings. -/
def allowedIpList (allowedIp allowedIpLocal : Option String) : List String :=
  ([allowedIp, allowedIpLocal].filterMap id).filter (fun s => s != "")

/-- `verifyIP` (middleware): `true` iff the request passes.  `xff` is the
`x-forwarded-for` header, `socketAddr` is `req.socket.remoteAddress`; the
header, when present, takes precedence (`??`). -/
def verifyIPAllows (allowedIp allowedIpLocal : Option String)
    (xff : Option String) (socketAddr : Option String) : Bool :=
  let rawIp :=
    match xff with
    | some h => some h
    | none => socketAddr
  let normalizedIp := normalizeIp (rawIp.getD "")
  (allowedIpList allowedIp allowedIpLocal).contains normalizedIp

/-- A request reaching the router's `GET /currency/top` layer. -/
structure TopReq where
  authorization : Option String
  xff : Option String
  socketAddr : Option String
deriving Repr, DecidableEq

/-- Response of `GET /currency/top` as seen by the caller. -/
structure TopResult where
  status : Nat
  body : List (String × Int)
deriving Repr, DecidableEq

/-- Express applies a `router.use(mount, mw)` layer to every request whose
path equals the mount or extends it at a `/` boundary. -/
def useMatches (mount path : String) : Bool :=
  path == mount || (mount ++ "/").data.isPrefixOf path.data

/-- Dispatch of `GET /currency/top`: the router registers
`router.use("/currency", verifyJWT)` and `router.use("/currency", verifyIP)`
(lines 52–53) before the route (line 297), and
`useMatches "/currency" "/currency/top" = true`, so both middlewares run
before the handler. -/
def handleTopRequest (st : DB) (tokenValid : String → Bool)
    (allowedIp allowedIpLocal : Option String) (req : TopReq) : TopResult :=
  match verifyJWTStep req.authorization tokenValid with
  | some s => { status := s, body := [] }
  | none =>
    if verifyIPAllows allowedIp allowedIpLocal req.xff req.socketAddr then
      { status := 200, body := topQuery st.funds }
    else
      { status := 403, body := [] }

/-- One mutating request, with its inputs (and whether its post-commit log
insert would succeed). -/
inductive Op where
  | payOp (from_uuid to_uuid : Option String) (amount : Option Int) (logOk : Bool)
  | depositOp (uuid : Option String) (amount : Option Int) (logOk : Bool)
  | withdrawOp (uuid : Option String) (count denomination : Option Int) (logOk : Bool)
  | dailyOp (uuid : Option String) (now : Int)
deriving Repr, DecidableEq

/-- The state after one mutating request. -/
def applyOp (st : DB) : Op → DB
  | Op.payOp fu tu amt lg => (pay st fu tu amt lg).2
  | Op.depositOp u amt lg => (deposit st u amt lg).2
  | Op.withdrawOp u c d lg => (withdraw st u c d lg).2
  | Op.dailyOp u now => (daily st u now).2

/-- The state after a sequence of mutating requests. -/
def applyOps (st : DB) (ops : List Op) : DB :=
  ops.foldl applyOp st

/-- Well-formedness the storage schema guarantees for `user_funds`:
`uuid` is the primary key (no duplicate rows) and every balance is
non-negative. -/
def WFfunds (funds : List Account) : Prop :=
  (funds.map Account.uuid).Nodup ∧ ∀ a ∈ funds, 0 ≤ a.balance

instance (funds : List Account) : Decidable (WFfunds funds) :=
  inferInstanceAs (Decidable (_ ∧ _))

/-! ## Helper lemmas -/

theorem uuid_updateBal (l : List Account) (u : String) (f : Int → Int) :
    (updateBal l u f).map Account.uuid = l.map Account.uuid := by
  unfold updateBal
  rw [List.map_map]
  apply List.map_congr_left
  intro a _
  by_cases h : a.uuid = u <;> simp [Function.comp, h]

theorem nonneg_updateBal (l : List Account) (u : String) (f : Int → Int)
    (h0 : ∀ a ∈ l, 0 ≤ a.balance)
    (hf : ∀ a ∈ l, a.uuid = u → 0 ≤ f a.balance) :
    ∀ b ∈ updateBal l u f, 0 ≤ b.balance := by
  intro b hb
  simp only [updateBal, List.mem_map] at hb
  obtain ⟨a, ha, rfl⟩ := hb
  by_cases h : a.uuid = u
  · simpa [h] using hf a ha h
  · simpa [h] using h0 a ha

theorem balance_eq_of_lookup (l : List Account) (u : String) (b : Int)
    (hn : (l.map Account.uuid).Nodup) (hl : lookupBal l u = some b) :
    ∀ a ∈ l, a.uuid = u → a.balance = b := by
  induction l with
  | nil => simp [lookupBal] at hl
  | cons x t ih =>
    simp only [List.map_cons, List.nodup_cons] at hn
    intro a ha hau
    rcases List.mem_cons.mp ha with rfl | hat
    · rw [lookupBal, List.find?_cons_of_pos _ (by simpa using hau)] at hl
      simpa using hl
    · by_cases hx : x.uuid = u
      · exact absurd (hx ▸ hau ▸ List.mem_map_of_mem Account.uuid hat) hn.1
      · rw [lookupBal, List.find?_cons_of_neg _ (by simpa using hx)] at hl
        exact ih hn.2 hl a hat hau

theorem hasRow_updateBal (l : List Account) (v t : String) (f : Int → Int) :
    hasRow (updateBal l v f) t = hasRow l t := by
  induction l with
  | nil => rfl
  | cons a rest ih =>
    simp only [updateBal, List.map_cons, hasRow, List.any_cons] at ih ⊢
    rw [ih]
    congr 1
    by_cases h : a.uuid = v <;> simp [h]

theorem lookup_hasRow (l : List Account) (u : String) (b : Int)
    (hl : lookupBal l u = some b) : hasRow l u = true := by
  unfold lookupBal at hl
  unfold hasRow
  obtain ⟨a, ha, _⟩ := Option.map_eq_some'.mp hl
  rw [List.any_eq_true]
  exact ⟨a, List.mem_of_find?_eq_some ha, by simpa using List.find?_some ha⟩

theorem updateBal_sub_add_cancel (l : List Account) (u : String) (a : Int) :
    updateBal (updateBal l u (fun x => x - a)) u (fun x => x + a) = l := by
  unfold updateBal
  rw [List.map_map]
  conv_rhs => rw [← List.map_id l]
  apply List.map_congr_left
  intro x _
  by_cases h : x.uuid = u
  · subst h
    simp
  · simp [Function.comp, h]

theorem pay_frame (st : DB) (fu tu : Option String) (amt : Option Int) :
    (pay st fu tu amt true).2 = st ∨ (pay st fu tu amt true).1.status = 200 := by
  unfold pay
  dsimp only
  repeat' split
  all_goals first | exact Or.inl rfl | exact Or.inr rfl | simp_all

theorem deposit_frame (st : DB) (u : Option String) (amt : Option Int) :
    (deposit st u amt true).2 = st ∨ (deposit st u amt true).1.status = 200 := by
  unfold deposit
  dsimp only
  repeat' split
  all_goals first | exact Or.inl rfl | exact Or.inr rfl | simp_all

theorem withdraw_frame (st : DB) (u : Option String) (c d : Option Int) :
    (withdraw st u c d true).2 = st ∨ (withdraw st u c d true).1.status = 200 := by
  unfold withdraw
  dsimp only
  repeat' split
  all_goals first | exact Or.inl rfl | exact Or.inr rfl | simp_all

theorem daily_frame (st : DB) (u : Option String) (now : Int) :
    (daily st u now).2 = st ∨ (daily st u now).1.status = 200 := by
  unfold daily
  dsimp only
  repeat' split
  all_goals first | exact Or.inl rfl | exact Or.inr rfl

theorem pay_funds_cases (st : DB) (fu tu : Option String) (amt : Option Int) (lg : Bool) :
    (pay st fu tu amt lg).2.funds = st.funds ∨
    ∃ f t a, 0 < a ∧
      (pay st fu tu amt lg).2.funds =
        updateBal (updateBal st.funds f (fun x => x - a)) t (fun x => x + a) ∧
      ∃ b, lookupBal st.funds f = some b ∧ a ≤ b := by
  unfold pay
  dsimp only
  repeat' split
  all_goals try (exact Or.inl rfl)
  all_goals (right; refine ⟨_, _, _, ?_, rfl, _, by assumption, ?_⟩) <;> omega

theorem deposit_funds_cases (st : DB) (u : Option String) (amt : Option Int) (lg : Bool) :
    (deposit st u amt lg).2.funds = st.funds ∨
    ∃ uu a, 0 < a ∧
      (deposit st u amt lg).2.funds = updateBal st.funds uu (fun x => x + a) := by
  unfold deposit
  dsimp only
  repeat' split
  all_goals try (exact Or.inl rfl)
  all_goals (right; refine ⟨_, _, ?_, rfl⟩; omega)

theorem withdraw_funds_cases (st : DB) (u : Option String) (c d : Option Int) (lg : Bool) :
    (withdraw st u c d lg).2.funds = st.funds ∨
    ∃ uu a, (withdraw st u c d lg).2.funds = updateBal st.funds uu (fun x => x - a) ∧
      ∃ b, lookupBal st.funds uu = some b ∧ a ≤ b := by
  unfold withdraw
  dsimp only
  repeat' split
  all_goals try (exact Or.inl rfl)
  all_goals (right; refine ⟨_, _, rfl, _, by assumption, ?_⟩; omega)

theorem daily_funds_cases (st : DB) (u : Option String) (now : Int) :
    (daily st u now).2.funds = st.funds ∨
    ∃ uu, (daily st u now).2.funds =
      updateBal st.funds uu (fun x => x + DAILY_REWARD_AMOUNT) := by
  unfold daily
  dsimp only
  repeat' split
  all_goals try (exact Or.inl rfl)
  all_goals exact Or.inr ⟨_, rfl⟩

theorem WF_updateBal_sub (st : DB) (f : String) (a b : Int)
    (h : WFfunds st.funds) (hl : lookupBal st.funds f = some b) (hab : a ≤ b) :
    ∀ x ∈ updateBal st.funds f (fun y => y - a), 0 ≤ x.balance := by
  apply nonneg_updateBal _ _ _ h.2
  intro x hx hxu
  have := balance_eq_of_lookup st.funds f b h.1 hl x hx hxu
  omega

theorem WF_pay_funds (st : DB) (fu tu : Option String) (amt : Option Int) (lg : Bool)
    (h : WFfunds st.funds) : WFfunds (pay st fu tu amt lg).2.funds := by
  rcases pay_funds_cases st fu tu amt lg with heq | ⟨f, t, a, ha, heq, b, hl, hab⟩
  · rw [heq]; exact h
  · rw [heq]
    constructor
    · rw [uuid_updateBal, uuid_updateBal]; exact h.1
    · apply nonneg_updateBal
      · exact WF_updateBal_sub st f a b h hl hab
      · intro x hx _
        have := WF_updateBal_sub st f a b h hl hab x hx
        omega

theorem WF_deposit_funds (st : DB) (u : Option String) (amt : Option Int) (lg : Bool)
    (h : WFfunds st.funds) : WFfunds (deposit st u amt lg).2.funds := by
  rcases deposit_funds_cases st u amt lg with heq | ⟨uu, a, ha, heq⟩
  · rw [heq]; exact h
  · rw [heq]
    constructor
    · rw [uuid_updateBal]; exact h.1
    · apply nonneg_updateBal _ _ _ h.2
      intro x hx _
      have := h.2 x hx
      omega

theorem WF_withdraw_funds (st : DB) (u : Option String) (c d : Option Int) (lg : Bool)
    (h : WFfunds st.funds) : WFfunds (withdraw st u c d lg).2.funds := by
  rcases withdraw_funds_cases st u c d lg with heq | ⟨uu, a, heq, b, hl, hab⟩
  · rw [heq]; exact h
  · rw [heq]
    exact ⟨by rw [uuid_updateBal]; exact h.1, WF_updateBal_sub st uu a b h hl hab⟩

theorem WF_daily_funds (st : DB) (u : Option String) (now : Int)
    (h : WFfunds st.funds) : WFfunds (daily st u now).2.funds := by
  rcases daily_funds_cases st u now with heq | ⟨uu, heq⟩
  · rw [heq]; exact h
  · rw [heq]
    constructor
    · rw [uuid_updateBal]; exact h.1
    · apply nonneg_updateBal _ _ _ h.2
      intro x hx _
      have := h.2 x hx
      simp only [DAILY_REWARD_AMOUNT]
      omega

theorem WF_applyOp (st : DB) (o : Op) (h : WFfunds st.funds) :
    WFfunds (applyOp st o).funds := by
  cases o with
  | payOp fu tu amt lg => exact WF_pay_funds st fu tu amt lg h
  | depositOp u amt lg => exact WF_deposit_funds st u amt lg h
  | withdrawOp u c d lg => exact WF_withdraw_funds st u c d lg h
  | dailyOp u now => exact WF_daily_funds st u now h

theorem WF_applyOps (st : DB) (ops : List Op) (h : WFfunds st.funds) :
    WFfunds (applyOps st ops).funds := by
  induction ops generalizing st with
  | nil => exact h
  | cons o t ih => exact ih (applyOp st o) (WF_applyOp st o h)

theorem pay_insufficient (st : DB) (f t : String) (a b : Int) (lg : Bool)
    (hl : lookupBal st.funds f = some b) (ha : 0 < a) (hb : b < a) :
    pay st (some f) (some t) (some a) lg = (payErr "Insufficient funds", st) := by
  unfold pay
  dsimp only
  rw [if_neg (by omega), hl]
  dsimp only
  rw [if_pos hb]

theorem withdraw_insufficient (st : DB) (uu : String) (c : Int) (d : Option Int)
    (b : Int) (lg : Bool)
    (hl : lookupBal st.funds uu = some b) (hc : 0 < c) (hb : b < c * d.getD 1000) :
    withdraw st (some uu) (some c) d lg = (withdrawErr "Insufficient funds", st) := by
  unfold withdraw
  dsimp only
  rw [if_neg (by omega), hl]
  dsimp only
  rw [if_pos hb]

theorem getLastReset_spec (now : Int) :
    getLastReset now % minutesPerDay = dailyResetMinute ∧
    getLastReset now ≤ now ∧ now < getLastReset now + minutesPerDay := by
  unfold getLastReset minutesPerDay dailyResetMinute
  dsimp only
  split <;> omega

theorem daily_status_iff (st : DB) (u : String) (b : Int) (now : Int)
    (hb : lookupBal st.funds u = some b) :
    ((daily st (some u) now).1.status = 200 ↔
      ((findReward st.daily_rewards u).bind RewardRow.last_claim_at = none ∨
       ∃ t, (findReward st.daily_rewards u).bind RewardRow.last_claim_at = some t ∧
         t < getLastReset now)) := by
  unfold daily
  dsimp only
  rw [hb]
  dsimp only
  cases hlc : (findReward st.daily_rewards u).bind RewardRow.last_claim_at with
  | none => simp [hlc]
  | some t =>
    by_cases hcl : getLastReset now ≤ t
    · simp [hlc, hcl]
    · simp [hlc, hcl]
      omega

theorem daily_rate_limited (st : DB) (u : String) (b : Int) (now t : Int)
    (hb : lookupBal st.funds u = some b)
    (hlc : (findReward st.daily_rewards u).bind RewardRow.last_claim_at = some t)
    (hcl : getLastReset now ≤ t) :
    (daily st (some u) now).1.status = 429 ∧
    (daily st (some u) now).1.hours = some ((getLastReset now + minutesPerDay - now) / 60) ∧
    (daily st (some u) now).1.minutes = some ((getLastReset now + minutesPerDay - now) % 60) ∧
    (daily st (some u) now).2 = st := by
  unfold daily
  dsimp only
  rw [hb]
  dsimp only
  rw [hlc]
  dsimp only
  rw [if_pos (by simpa using hcl)]
  exact ⟨rfl, rfl, rfl, rfl⟩

theorem self_pay_semantics (st : DB) (u : String) (b amt : Int)
    (hl : lookupBal st.funds u = some b) (h0 : 0 < amt) (hba : amt ≤ b) :
    (pay st (some u) (some u) (some amt) true).1.status = 200 ∧
    (pay st (some u) (some u) (some amt) true).1.new_sender_balance = some (b - amt) ∧
    (pay st (some u) (some u) (some amt) true).2.funds = st.funds ∧
    (pay st (some u) (some u) (some amt) true).2.txLog =
      st.txLog ++ [{ uuid := u, action := "pay", amount := amt,
                     from_uuid := some u, to_uuid := some u,
                     denomination := none, count := none,
                     balance_after := some (b - amt) }] := by
  have hr : hasRow (updateBal st.funds u (fun x => x - amt)) u = true := by
    rw [hasRow_updateBal]
    exact lookup_hasRow st.funds u b hl
  unfold pay
  dsimp only
  rw [if_neg (by omega), hl]
  dsimp only
  rw [if_neg (by omega), if_pos hr]
  refine ⟨rfl, rfl, ?_, rfl⟩
  exact updateBal_sub_add_cancel st.funds u amt

theorem topQuery_sorted (funds : List Account) :
    (topQuery funds).Pairwise (fun p q => q.2 ≤ p.2) := by
  unfold topQuery
  rw [List.pairwise_map]
  apply List.Pairwise.sublist (List.take_sublist 10 _)
  exact List.sorted_insertionSort balGE funds

theorem topQuery_len (funds : List Account) : (topQuery funds).length ≤ 10 := by
  unfold topQuery
  rw [List.length_map, List.length_take]
  exact min_le_left 10 _

theorem top_request_no_auth (st : DB) (tv : String → Bool)
    (aIp aIpL : Option String) (xff sock : Option String) :
    handleTopRequest st tv aIp aIpL ⟨none, xff, sock⟩ = ⟨401, []⟩ := rfl

theorem top_request_authed (st : DB) (tv : String → Bool)
    (aIp aIpL : Option String) (req : TopReq)
    (hj : verifyJWTStep req.authorization tv = none)
    (hi : verifyIPAllows aIp aIpL req.xff req.socketAddr = true) :
    handleTopRequest st tv aIp aIpL req = ⟨200, topQuery st.funds⟩ := by
  unfold handleTopRequest
  rw [hj]
  dsimp only
  rw [if_pos hi]

theorem withdraw_invalid_count (st : DB) (u : Option String) (c d : Option Int)
    (lg : Bool) (h : u = none ∨ c = none ∨ ∃ cv, c = some cv ∧ cv ≤ 0) :
    withdraw st u c d lg = (withdrawErr "Invalid count or uuid", st) := by
  rcases h with rfl | rfl | ⟨cv, rfl, hcv⟩
  · cases c <;> rfl
  · cases u <;> rfl
  · cases u with
    | none => rfl
    | some uu =>
      unfold withdraw
      dsimp only
      rw [if_pos hcv]

theorem pay_absent_sender (st : DB) (f t : String) (amt : Int) (lg : Bool)
    (hl : lookupBal st.funds f = none) (ha : 0 < amt) :
    pay st (some f) (some t) (some amt) lg = (payErr "Sender not found", st) := by
  unfold pay
  dsimp only
  rw [if_neg (by omega), hl]

theorem pay_absent_recipient (st : DB) (f t : String) (amt b : Int) (lg : Bool)
    (hl : lookupBal st.funds f = some b) (ha : 0 < amt) (hab : amt ≤ b)
    (hr : hasRow st.funds t = false) :
    pay st (some f) (some t) (some amt) lg = (payErr "Recipient not found", st) := by
  unfold pay
  dsimp only
  rw [if_neg (by omega), hl]
  dsimp only
  rw [if_neg (by omega), if_neg (by rw [hasRow_updateBal]; simp [hr])]

theorem deposit_absent_user (st : DB) (u : String) (amt : Int) (lg : Bool)
    (hl : lookupBal st.funds u = none) (ha : 0 < amt) :
    deposit st (some u) (some amt) lg = (depositErr 404 "User not found", st) := by
  unfold deposit
  dsimp only
  rw [if_neg (by omega), hl]

theorem withdraw_absent_user (st : DB) (u : String) (c : Int) (d : Option Int) (lg : Bool)
    (hl : lookupBal st.funds u = none) (hc : 0 < c) :
    withdraw st (some u) (some c) d lg = (withdrawErr "User not found", st) := by
  unfold withdraw
  dsimp only
  rw [if_neg (by omega), hl]

theorem daily_absent_user (st : DB) (u : String) (now : Int)
    (hl : lookupBal st.funds u = none) :
    daily st (some u) now =
      ({ status := 404, new_balance := none, hours := none, minutes := none }, st) := by
  unfold daily
  dsimp only
  rw [hl]

theorem getBalance_absent (st : DB) (u : String) (hl : lookupBal st.funds u = none) :
    getBalance st (some u) =
      { status := 404, balance := none, error := some "Player not found" } := by
  unfold getBalance
  dsimp only
  rw [hl]

theorem pay_log_indep_funds (st : DB) (fu tu : Option String) (amt : Option Int) :
    (pay st fu tu amt false).2.funds = (pay st fu tu amt true).2.funds ∧
    ((pay st fu tu amt true).1.status ≠ 200 ∨
      ((pay st fu tu amt false).1.status = 400 ∧
       (pay st fu tu amt false).1.success = false ∧
       (pay st fu tu amt false).2.txLog = st.txLog)) := by
  unfold pay
  dsimp only
  repeat' split
  all_goals simp [payErr]
  all_goals simp_all

theorem deposit_log_indep_funds (st : DB) (u : Option String) (amt : Option Int) :
    (deposit st u amt false).2.funds = (deposit st u amt true).2.funds ∧
    ((deposit st u amt true).1.status ≠ 200 ∨
      ((deposit st u amt false).1.status = 400 ∧
       (deposit st u amt false).1.success = false ∧
       (deposit st u amt false).2.txLog = st.txLog)) := by
  unfold deposit
  dsimp only
  repeat' split
  all_goals simp [depositErr]
  all_goals simp_all

theorem withdraw_log_indep_funds (st : DB) (u : Option String) (c d : Option Int) :
    (withdraw st u c d false).2.funds = (withdraw st u c d true).2.funds ∧
    ((withdraw st u c d true).1.status ≠ 200 ∨
      ((withdraw st u c d false).1.status = 400 ∧
       (withdraw st u c d false).1.success = false ∧
       (withdraw st u c d false).2.txLog = st.txLog)) := by
  unfold withdraw
  dsimp only
  repeat' split
  all_goals simp [withdrawErr]
  all_goals simp_all

/-! ## Claims -/

/-- C1: the spec says a successful daily claim commits the reward credit and
then logs a `daily` transaction record.  The handler commits the credit,
answers 200 with the new balance, and appends nothing to
`currency_transactions` on any path — here evaluated on an eligible
account: zero records with action `daily` exist after the claim. -/
theorem daily_claim_appends_no_record :
    (daily ⟨[⟨"u1", "Alice", 0⟩], [], []⟩ (some "u1") 500).1.status = 200 ∧
    (daily ⟨[⟨"u1", "Alice", 0⟩], [], []⟩ (some "u1") 500).1.new_balance = some 50 ∧
    ((daily ⟨[⟨"u1", "Alice", 0⟩], [], []⟩ (some "u1") 500).2.txLog.filter
      (fun r => r.action == "daily")).length = 0 := by decide

/-- C2 counterexample: a withdraw with `count = 1` and `denomination = -5`
passes validation, reaches storage, succeeds with status 200 and CHANGES
the balance from 0 to 5 — the supplied non-positive denomination is not
rejected with InvalidInput. -/
theorem withdraw_negative_denomination_cex :
    (withdraw ⟨[⟨"u1", "Alice", 0⟩], [], []⟩ (some "u1") (some 1) (some (-5)) true).1.status
      = 200 ∧
    lookupBal
      (withdraw ⟨[⟨"u1", "Alice", 0⟩], [], []⟩ (some "u1") (some 1) (some (-5)) true).2.funds
      "u1" = some 5 := by decide

/-- C2 (amended): the withdraw handler validates only the uuid and the
count — a missing uuid, a missing/non-numeric count, or `count <= 0` is
rejected with InvalidInput (HTTP 400) before any storage access and the
state is unchanged; the denomination's sign is never checked. -/
theorem withdraw_rejects_only_bad_count (st : DB) (u : Option String)
    (c d : Option Int) (lg : Bool)
    (h : u = none ∨ c = none ∨ ∃ cv, c = some cv ∧ cv ≤ 0) :
    withdraw st u c d lg = (withdrawErr "Invalid count or uuid", st) :=
  withdraw_invalid_count st u c d lg h

theorem withdraw_rejects_only_bad_count_witness :
    withdraw ⟨[⟨"u1", "Alice", 7⟩], [], []⟩ (some "u1") (some 0) none true =
      (withdrawErr "Invalid count or uuid", ⟨[⟨"u1", "Alice", 7⟩], [], []⟩) :=
  withdraw_rejects_only_bad_count ⟨[⟨"u1", "Alice", 7⟩], [], []⟩ (some "u1")
    (some 0) none true (Or.inr (Or.inr ⟨0, rfl, by decide⟩))

/-- C3: with the post-commit log insert succeeding (so every failure is a
pre-commit failure), each mutating handler either returns the state it
started from (the transaction rolled back, or never wrote) or answers
success: no error response ever leaves a changed balance, reward row, or
log row. -/
theorem error_responses_leave_state_unchanged (st : DB)
    (fu tu u1 u2 u3 : Option String) (amt amt2 c d : Option Int) (now : Int) :
    ((pay st fu tu amt true).2 = st ∨ (pay st fu tu amt true).1.status = 200) ∧
    ((deposit st u1 amt2 true).2 = st ∨ (deposit st u1 amt2 true).1.status = 200) ∧
    ((withdraw st u2 c d true).2 = st ∨ (withdraw st u2 c d true).1.status = 200) ∧
    ((daily st u3 now).2 = st ∨ (daily st u3 now).1.status = 200) :=
  ⟨pay_frame st fu tu amt, deposit_frame st u1 amt2,
   withdraw_frame st u2 c d, daily_frame st u3 now⟩

/-- C4: starting from a well-formed `user_funds` table (primary-key uuids,
all balances non-negative), every sequence of pay/deposit/withdraw/daily
requests keeps every stored balance non-negative; and whenever the locked
balance is below the (positive) debit amount, pay and withdraw answer
`Insufficient funds` and leave the state untouched. -/
theorem balance_nonneg_invariant :
    (∀ (st : DB) (ops : List Op), WFfunds st.funds → WFfunds (applyOps st ops).funds) ∧
    (∀ (st : DB) (f t : String) (a b : Int) (lg : Bool),
      lookupBal st.funds f = some b → 0 < a → b < a →
      pay st (some f) (some t) (some a) lg = (payErr "Insufficient funds", st)) ∧
    (∀ (st : DB) (uu : String) (c : Int) (d : Option Int) (b : Int) (lg : Bool),
      lookupBal st.funds uu = some b → 0 < c → b < c * d.getD 1000 →
      withdraw st (some uu) (some c) d lg = (withdrawErr "Insufficient funds", st)) :=
  ⟨fun st ops h => WF_applyOps st ops h,
   fun st f t a b lg hl ha hb => pay_insufficient st f t a b lg hl ha hb,
   fun st uu c d b lg hl hc hb => withdraw_insufficient st uu c d b lg hl hc hb⟩

theorem balance_nonneg_invariant_witness :
    WFfunds (applyOps ⟨[⟨"u1", "A", 100⟩, ⟨"u2", "B", 0⟩], [], []⟩
      [Op.payOp (some "u1") (some "u2") (some 40) true,
       Op.withdrawOp (some "u2") (some 1) (some 30) true,
       Op.dailyOp (some "u1") 500,
       Op.depositOp (some "u2") (some 5) true]).funds ∧
    pay ⟨[⟨"u1", "A", 100⟩], [], []⟩ (some "u1") (some "u2") (some 101) true =
      (payErr "Insufficient funds", ⟨[⟨"u1", "A", 100⟩], [], []⟩) ∧
    withdraw ⟨[⟨"u1", "A", 100⟩], [], []⟩ (some "u1") (some 1) none true =
      (withdrawErr "Insufficient funds", ⟨[⟨"u1", "A", 100⟩], [], []⟩) :=
  ⟨balance_nonneg_invariant.1 ⟨[⟨"u1", "A", 100⟩, ⟨"u2", "B", 0⟩], [], []⟩
      [Op.payOp (some "u1") (some "u2") (some 40) true,
       Op.withdrawOp (some "u2") (some 1) (some 30) true,
       Op.dailyOp (some "u1") 500,
       Op.depositOp (some "u2") (some 5) true] (by decide),
   balance_nonneg_invariant.2.1 ⟨[⟨"u1", "A", 100⟩], [], []⟩ "u1" "u2" 101 100 true
      (by decide) (by decide) (by decide),
   balance_nonneg_invariant.2.2 ⟨[⟨"u1", "A", 100⟩], [], []⟩ "u1" 1 none 100 true
      (by decide) (by decide) (by decide)⟩

/-- C5: the reset boundary computed by the daily handler is the unique
instant at 06:30 local wall-clock time lying in the half-open day-long
window ending now (today's 06:30, or yesterday's when now precedes it);
for an existing account the claim succeeds exactly when no prior claim
row/timestamp exists or the recorded timestamp is strictly before that
boundary; otherwise the handler answers 429 with the remaining time to
boundary + 1 day split into whole hours and minutes, rolling back. -/
theorem daily_reset_boundary_and_eligibility :
    (∀ now : Int, getLastReset now % minutesPerDay = dailyResetMinute ∧
      getLastReset now ≤ now ∧ now < getLastReset now + minutesPerDay) ∧
    (∀ (st : DB) (u : String) (b now : Int), lookupBal st.funds u = some b →
      ((daily st (some u) now).1.status = 200 ↔
        ((findReward st.daily_rewards u).bind RewardRow.last_claim_at = none ∨
         ∃ t, (findReward st.daily_rewards u).bind RewardRow.last_claim_at = some t ∧
           t < getLastReset now))) ∧
    (∀ (st : DB) (u : String) (b now t : Int),
      lookupBal st.funds u = some b →
      (findReward st.daily_rewards u).bind RewardRow.last_claim_at = some t →
      getLastReset now ≤ t →
      (daily st (some u) now).1.status = 429 ∧
      (daily st (some u) now).1.hours =
        some ((getLastReset now + minutesPerDay - now) / 60) ∧
      (daily st (some u) now).1.minutes =
        some ((getLastReset now + minutesPerDay - now) % 60) ∧
      (daily st (some u) now).2 = st) :=
  ⟨getLastReset_spec,
   fun st u b now hb => daily_status_iff st u b now hb,
   fun st u b now t hb hlc hcl => daily_rate_limited st u b now t hb hlc hcl⟩

theorem daily_reset_boundary_and_eligibility_witness :
    getLastReset 1440500 % minutesPerDay = dailyResetMinute ∧
    (daily ⟨[⟨"u1", "Alice", 0⟩], [], []⟩ (some "u1") 500).1.status = 200 ∧
    (daily ⟨[⟨"u1", "Alice", 0⟩], [⟨"u1", some 1440400⟩], []⟩ (some "u1") 1440500).1.status
      = 429 ∧
    (daily ⟨[⟨"u1", "Alice", 0⟩], [⟨"u1", some 1440400⟩], []⟩ (some "u1") 1440500).1.hours
      = some ((getLastReset 1440500 + minutesPerDay - 1440500) / 60) :=
  ⟨(daily_reset_boundary_and_eligibility.1 1440500).1,
   (daily_reset_boundary_and_eligibility.2.1 ⟨[⟨"u1", "Alice", 0⟩], [], []⟩ "u1" 0 500
      (by decide)).mpr (Or.inl (by decide)),
   (daily_reset_boundary_and_eligibility.2.2 ⟨[⟨"u1", "Alice", 0⟩], [⟨"u1", some 1440400⟩], []⟩
      "u1" 0 1440500 1440400 (by decide) (by decide) (by decide)).1,
   (daily_reset_boundary_and_eligibility.2.2 ⟨[⟨"u1", "Alice", 0⟩], [⟨"u1", some 1440400⟩], []⟩
      "u1" 0 1440500 1440400 (by decide) (by decide) (by decide)).2.1⟩

/-- C6 counterexample: a `GET /currency/top` request with no authorization
header is answered 401 by the `verifyJWT` middleware (registered with
`router.use("/currency", ...)` before the route), not with the leaderboard
— which for this table would have been `[("Alice", 100)]`. -/
theorem top_unauthenticated_cex :
    handleTopRequest ⟨[⟨"u1", "Alice", 100⟩], [], []⟩ (fun _ => true)
      (some "1.2.3.4") none ⟨none, some "1.2.3.4", none⟩ = ⟨401, []⟩ ∧
    topQuery [⟨"u1", "Alice", 100⟩] = [("Alice", 100)] := by decide

/-- C6 (amended): `/currency/top` lies under the `/currency` mount of the
auth middlewares, so a request without an authorization header gets 401
and an allow-listed origin is also required; once both gates pass, the
handler returns the leaderboard — at most 10 entries ordered by balance
descending. -/
theorem top_gated_by_jwt_and_ip (st : DB) (tv : String → Bool)
    (aIp aIpL : Option String) (xff sock : Option String) (req : TopReq) :
    useMatches "/currency" "/currency/top" = true ∧
    handleTopRequest st tv aIp aIpL ⟨none, xff, sock⟩ = ⟨401, []⟩ ∧
    (verifyJWTStep req.authorization tv = none →
      verifyIPAllows aIp aIpL req.xff req.socketAddr = true →
      handleTopRequest st tv aIp aIpL req = ⟨200, topQuery st.funds⟩) ∧
    (topQuery st.funds).length ≤ 10 ∧
    (topQuery st.funds).Pairwise (fun p q => q.2 ≤ p.2) :=
  ⟨by decide, top_request_no_auth st tv aIp aIpL xff sock,
   fun hj hi => top_request_authed st tv aIp aIpL req hj hi,
   topQuery_len st.funds, topQuery_sorted st.funds⟩

theorem top_gated_by_jwt_and_ip_witness :
    handleTopRequest ⟨[⟨"u1", "Alice", 100⟩], [], []⟩ (fun _ => true)
      (some "1.2.3.4") none ⟨some "Bearer tok", some "1.2.3.4", none⟩ =
      ⟨200, topQuery [⟨"u1", "Alice", 100⟩]⟩ :=
  (top_gated_by_jwt_and_ip ⟨[⟨"u1", "Alice", 100⟩], [], []⟩ (fun _ => true)
    (some "1.2.3.4") none none none
    ⟨some "Bearer tok", some "1.2.3.4", none⟩).2.2.1 (by decide) (by decide)

/-- C7 counterexample: a pay whose sender row is absent is answered with
HTTP 400 and the message `Sender not found` — through the handler's
catch-all `res.status(400)` — not with 404. -/
theorem pay_absent_sender_cex :
    (pay ⟨[], [], []⟩ (some "ghost") (some "u2") (some 5) true).1.status = 400 ∧
    (pay ⟨[], [], []⟩ (some "ghost") (some "u2") (some 5) true).1.error =
      some "Sender not found" := by decide

/-- C7 (amended): only the handlers that answer the missing row directly use
404 — balance lookup, deposit and daily; pay (absent sender or recipient)
and withdraw (absent account) throw inside the transaction and the
catch-all answers 400 with the error message, leaving the state
unchanged. -/
theorem absent_account_error_statuses (st : DB) (u f t : String)
    (amt c b now : Int) (d : Option Int) (lg : Bool) :
    (lookupBal st.funds u = none → (getBalance st (some u)).status = 404) ∧
    (lookupBal st.funds u = none → 0 < amt →
      deposit st (some u) (some amt) lg = (depositErr 404 "User not found", st)) ∧
    (lookupBal st.funds u = none →
      daily st (some u) now =
        ({ status := 404, new_balance := none, hours := none, minutes := none }, st)) ∧
    (lookupBal st.funds f = none → 0 < amt →
      pay st (some f) (some t) (some amt) lg = (payErr "Sender not found", st)) ∧
    (lookupBal st.funds f = some b → 0 < amt → amt ≤ b → hasRow st.funds t = false →
      pay st (some f) (some t) (some amt) lg = (payErr "Recipient not found", st)) ∧
    (lookupBal st.funds u = none → 0 < c →
      withdraw st (some u) (some c) d lg = (withdrawErr "User not found", st)) :=
  ⟨fun hl => by rw [getBalance_absent st u hl],
   fun hl ha => deposit_absent_user st u amt lg hl ha,
   fun hl => daily_absent_user st u now hl,
   fun hl ha => pay_absent_sender st f t amt lg hl ha,
   fun hl ha hab hr => pay_absent_recipient st f t amt b lg hl ha hab hr,
   fun hl hc => withdraw_absent_user st u c d lg hl hc⟩

theorem absent_account_error_statuses_witness :
    (getBalance ⟨[], [], []⟩ (some "ghost")).status = 404 ∧
    deposit ⟨[], [], []⟩ (some "ghost") (some 5) true =
      (depositErr 404 "User not found", ⟨[], [], []⟩) ∧
    pay ⟨[], [], []⟩ (some "ghost") (some "u2") (some 5) true =
      (payErr "Sender not found", ⟨[], [], []⟩) ∧
    pay ⟨[⟨"u1", "A", 9⟩], [], []⟩ (some "u1") (some "ghost") (some 5) true =
      (payErr "Recipient not found", ⟨[⟨"u1", "A", 9⟩], [], []⟩) ∧
    withdraw ⟨[], [], []⟩ (some "ghost") (some 1) none true =
      (withdrawErr "User not found", ⟨[], [], []⟩) ∧
    daily ⟨[], [], []⟩ (some "ghost") 500 =
      ({ status := 404, new_balance := none, hours := none, minutes := none },
       ⟨[], [], []⟩) :=
  ⟨(absent_account_error_statuses ⟨[], [], []⟩ "ghost" "f" "t" 5 1 0 500 none true).1
      (by decide),
   (absent_account_error_statuses ⟨[], [], []⟩ "ghost" "f" "t" 5 1 0 500 none true).2.1
      (by decide) (by decide),
   (absent_account_error_statuses ⟨[], [], []⟩ "x" "ghost" "u2" 5 1 0 500 none true).2.2.2.1
      (by decide) (by decide),
   (absent_account_error_statuses ⟨[⟨"u1", "A", 9⟩], [], []⟩ "x" "u1" "ghost" 5 1 9 500 none
      true).2.2.2.2.1 (by decide) (by decide) (by decide) (by decide),
   (absent_account_error_statuses ⟨[], [], []⟩ "ghost" "f" "t" 5 1 0 500 none true).2.2.2.2.2
      (by decide) (by decide),
   (absent_account_error_statuses ⟨[], [], []⟩ "ghost" "f" "t" 5 1 0 500 none true).2.2.1
      (by decide)⟩

/-- C8 counterexample: when the post-commit log insert fails, the committed
transfer stays committed (100/0 became 50/50) and no log row exists, but
the caller receives the catch-all 400 error response, not the operation's
success response. -/
theorem pay_log_failure_cex :
    (pay ⟨[⟨"u1", "A", 100⟩, ⟨"u2", "B", 0⟩], [], []⟩
        (some "u1") (some "u2") (some 50) false).1 = payErr "log insert failed" ∧
    lookupBal (pay ⟨[⟨"u1", "A", 100⟩, ⟨"u2", "B", 0⟩], [], []⟩
        (some "u1") (some "u2") (some 50) false).2.funds "u1" = some 50 ∧
    lookupBal (pay ⟨[⟨"u1", "A", 100⟩, ⟨"u2", "B", 0⟩], [], []⟩
        (some "u1") (some "u2") (some 50) false).2.funds "u2" = some 50 ∧
    (pay ⟨[⟨"u1", "A", 100⟩, ⟨"u2", "B", 0⟩], [], []⟩
        (some "u1") (some "u2") (some 50) false).2.txLog = [] := by decide

/-- C8 (amended): a failing log insert never changes which balances were
committed (the funds are identical to the successful-log run), and on the
success path it leaves the transaction log untouched while the handler
answers 400 with `success` absent — the committed balance change is not
reversed, but the caller receives an error, not the success response. -/
theorem log_failure_commits_but_errors (st : DB) (fu tu du wu : Option String)
    (amt da wc wd : Option Int) :
    ((pay st fu tu amt false).2.funds = (pay st fu tu amt true).2.funds ∧
      ((pay st fu tu amt true).1.status ≠ 200 ∨
        ((pay st fu tu amt false).1.status = 400 ∧
         (pay st fu tu amt false).1.success = false ∧
         (pay st fu tu amt false).2.txLog = st.txLog))) ∧
    ((deposit st du da false).2.funds = (deposit st du da true).2.funds ∧
      ((deposit st du da true).1.status ≠ 200 ∨
        ((deposit st du da false).1.status = 400 ∧
         (deposit st du da false).1.success = false ∧
         (deposit st du da false).2.txLog = st.txLog))) ∧
    ((withdraw st wu wc wd false).2.funds = (withdraw st wu wc wd true).2.funds ∧
      ((withdraw st wu wc wd true).1.status ≠ 200 ∨
        ((withdraw st wu wc wd false).1.status = 400 ∧
         (withdraw st wu wc wd false).1.success = false ∧
         (withdraw st wu wc wd false).2.txLog = st.txLog))) :=
  ⟨pay_log_indep_funds st fu tu amt, deposit_log_indep_funds st du da,
   withdraw_log_indep_funds st wu wc wd⟩

theorem log_failure_commits_but_errors_witness :
    (pay ⟨[⟨"u1", "A", 100⟩, ⟨"u2", "B", 0⟩], [], []⟩
        (some "u1") (some "u2") (some 50) false).2.funds =
      (pay ⟨[⟨"u1", "A", 100⟩, ⟨"u2", "B", 0⟩], [], []⟩
        (some "u1") (some "u2") (some 50) true).2.funds :=
  (log_failure_commits_but_errors ⟨[⟨"u1", "A", 100⟩, ⟨"u2", "B", 0⟩], [], []⟩
    (some "u1") (some "u2") none none (some 50) none none none).1.1

/-- C9: a self-pay (`to_uuid` equal to the sender) with `0 < amount <=
balance b` succeeds; the stored table is unchanged (debit and credit
cancel row by row), while both the `new_sender_balance` response field and
the logged `balance_after` carry `b - amount`, not the stored `b`. -/
theorem self_pay_reports_debited_balance (st : DB) (u : String) (b amt : Int)
    (hl : lookupBal st.funds u = some b) (h0 : 0 < amt) (hba : amt ≤ b) :
    (pay st (some u) (some u) (some amt) true).1.status = 200 ∧
    (pay st (some u) (some u) (some amt) true).1.new_sender_balance = some (b - amt) ∧
    (pay st (some u) (some u) (some amt) true).2.funds = st.funds ∧
    (pay st (some u) (some u) (some amt) true).2.txLog =
      st.txLog ++ [{ uuid := u, action := "pay", amount := amt,
                     from_uuid := some u, to_uuid := some u,
                     denomination := none, count := none,
                     balance_after := some (b - amt) }] :=
  self_pay_semantics st u b amt hl h0 hba

theorem self_pay_reports_debited_balance_witness :
    (pay ⟨[⟨"u1", "Alice", 100⟩], [], []⟩ (some "u1") (some "u1") (some 30) true).1.status
      = 200 ∧
    (pay ⟨[⟨"u1", "Alice", 100⟩], [], []⟩
        (some "u1") (some "u1") (some 30) true).1.new_sender_balance = some (100 - 30) ∧
    (pay ⟨[⟨"u1", "Alice", 100⟩], [], []⟩ (some "u1") (some "u1") (some 30) true).2.funds =
      [⟨"u1", "Alice", 100⟩] ∧
    (pay ⟨[⟨"u1", "Alice", 100⟩], [], []⟩ (some "u1") (some "u1") (some 30) true).2.txLog =
      [] ++ [{ uuid := "u1", action := "pay", amount := 30,
               from_uuid := some "u1", to_uuid := some "u1",
               denomination := none, count := none,
               balance_after := some (100 - 30) }] :=
  self_pay_reports_debited_balance ⟨[⟨"u1", "Alice", 100⟩], [], []⟩ "u1" 100 30
    (by decide) (by decide) (by decide)

/-- C10: when the `x-forwarded-for` header is present it alone feeds the
origin check — the decision is identical for any two socket addresses —
and whenever the header's normalised form (first comma-separated entry
after removing the first `::ffff:` occurrence and trimming) is in the
allow-list, the request passes regardless of the true socket address. -/
theorem verifyIP_forwarded_header_decides (aIp aIpL : Option String) (h : String)
    (s1 s2 : Option String) :
    verifyIPAllows aIp aIpL (some h) s1 = verifyIPAllows aIp aIpL (some h) s2 ∧
    ((allowedIpList aIp aIpL).contains (normalizeIp h) = true →
      verifyIPAllows aIp aIpL (some h) s1 = true) :=
  ⟨rfl, fun hc => hc⟩

theorem verifyIP_forwarded_header_decides_witness :
    verifyIPAllows (some "1.2.3.4") none (some "::ffff:1.2.3.4, 9.9.9.9") (some "8.8.8.8") =
      verifyIPAllows (some "1.2.3.4") none (some "::ffff:1.2.3.4, 9.9.9.9") none ∧
    verifyIPAllows (some "1.2.3.4") none (some "::ffff:1.2.3.4, 9.9.9.9") (some "8.8.8.8") =
      true :=
  ⟨(verifyIP_forwarded_header_decides (some "1.2.3.4") none "::ffff:1.2.3.4, 9.9.9.9"
      (some "8.8.8.8") none).1,
   (verifyIP_forwarded_header_decides (some "1.2.3.4") none "::ffff:1.2.3.4, 9.9.9.9"
      (some "8.8.8.8") none).2 (by decide)⟩
